import Mathlib

/-!
A verification development for the web-page topic classifier
(`webcontent.py`).  Python strings are modelled as `List Char`; the
external collaborators (HTTP client, boilerplate extractor, spaCy
tokenizer, WordNet `morphy`, embedding similarity, TextBlob sentiment,
and the pandas sorting backend) are modelled as an environment record
of abstract functions, each constrained only by its documented
contract.  The repository's own functions `remove_trash`, `to_token`,
`sentiment` and `classify_web` are translated statement by statement.
-/

/-- Model of Python `str.split()` with no separator: split on runs of
whitespace and drop the empty pieces. -/
def splitWs (l : List Char) : List (List Char) :=
  (l.splitOnP (fun c => c.isWhitespace)).filter (fun s => !s.isEmpty)

/-- Model of Python `len(s.split())`: number of whitespace-delimited words. -/
def pyWordCount (s : List Char) : Nat := (splitWs s).length

/-- Model of Python `" ".join(words)`. -/
def joinWords : List (List Char) → List Char
  | [] => []
  | t :: ts => t ++ ts.flatMap (fun w => ' ' :: w)

/-- Function `remove_trash` from `webcontent.py`: split the input on the newline
character and accumulate (with `+=`, no added delimiter) exactly the
segments having strictly more than `min_size` whitespace-delimited
words. -/
def remove_trash (text : List Char) (min_size : Nat := 4) : List Char :=
  (text.splitOn '\n').foldl
    (fun cleaned i => if pyWordCount i ≤ min_size then cleaned else cleaned ++ i) []

theorem remove_trash_foldl (min_size : Nat) (segs : List (List Char)) (acc : List Char) :
    segs.foldl (fun cleaned i => if pyWordCount i ≤ min_size then cleaned else cleaned ++ i) acc
      = acc ++ (segs.filter (fun i => !decide (pyWordCount i ≤ min_size))).flatten := by
  induction segs generalizing acc with
  | nil => simp
  | cons s ss ih =>
    by_cases h : pyWordCount s ≤ min_size
    · rw [List.foldl_cons, if_pos h, ih]
      simp [List.filter_cons, h]
    · rw [List.foldl_cons, if_neg h, ih]
      simp [List.filter_cons, h]

/-- C2: `remove_trash` splits on newlines, discards every segment with at
most `min_size` whitespace-delimited words, and concatenates the
surviving segments verbatim with no added delimiter; consequently, when
every segment has at most `min_size` words the result is the empty
string. -/
theorem remove_trash_contract (text : List Char) (min_size : Nat) :
    remove_trash text min_size
      = ((text.splitOn '\n').filter (fun i => !decide (pyWordCount i ≤ min_size))).flatten
    ∧ ((∀ i ∈ text.splitOn '\n', pyWordCount i ≤ min_size) → remove_trash text min_size = []) := by
  constructor
  · rw [remove_trash, remove_trash_foldl, List.nil_append]
  · intro h
    rw [remove_trash, remove_trash_foldl, List.nil_append]
    have : (text.splitOn '\n').filter (fun i => !decide (pyWordCount i ≤ min_size)) = [] := by
      rw [List.filter_eq_nil_iff]
      intro a ha
      simp [h a ha]
    rw [this, List.flatten_nil]

/-- Witness for C2 at a concrete input: both lines of `"a b\nc d"` have
at most 4 words, so the cleaned text is empty. -/
theorem remove_trash_contract_witness :
    (∀ i ∈ ("a b\nc d".toList.splitOn '\n'), pyWordCount i ≤ 4)
    ∧ remove_trash "a b\nc d".toList 4 = [] :=
  ⟨by decide, (remove_trash_contract "a b\nc d".toList 4).2 (by decide)⟩

/-- A list of nonempty, whitespace-free words is recovered by
whitespace-splitting its space-join (Python `" ".join(ws).split() == ws`). -/
theorem splitWs_joinWords :
    ∀ (tops : List (List Char)),
      (∀ t ∈ tops, t ≠ [] ∧ ∀ c ∈ t, c.isWhitespace = false) →
      splitWs (joinWords tops) = tops := by
  intro tops
  induction tops with
  | nil => intro _; rfl
  | cons t ts ih =>
    intro h
    have ht := h t (List.mem_cons_self t ts)
    have hnws : ∀ x ∈ t, ¬((fun c => c.isWhitespace) x = true) := by
      intro x hx
      simp [ht.2 x hx]
    cases ts with
    | nil =>
      have hj : joinWords [t] = t := by simp [joinWords]
      rw [hj, splitWs, List.splitOnP_eq_single _ _ hnws]
      simp [ht.1]
    | cons u us =>
      have hj : joinWords (t :: u :: us) = t ++ ' ' :: joinWords (u :: us) := by
        simp [joinWords, List.flatMap_cons]
      rw [hj, splitWs, List.splitOnP_first _ _ hnws ' ' (by decide)]
      have hrest : splitWs (joinWords (u :: us)) = u :: us :=
        ih (fun x hx => h x (List.mem_cons_of_mem t hx))
      rw [splitWs] at hrest
      simp [List.filter_cons, ht.1, hrest]

/-- Model of a spaCy token as consumed by `to_token`: its surface text
`orth_` together with the boolean attributes the code inspects.  spaCy
defines `lower_` as the lowercased `orth_`, modelled below by
`pyLower`. -/
structure SpacyToken where
  orth : List Char
  like_url : Bool
  is_punct : Bool
  like_num : Bool
  is_stop : Bool
deriving DecidableEq

/-- Model of Python `str.lower()` (spaCy `token.lower_`). -/
def pyLower (s : List Char) : List Char := s.map Char.toLower

/-- Model of Python `str.isspace()`: nonempty and all whitespace. -/
def pyIsSpace (s : List Char) : Bool := !s.isEmpty && s.all (fun c => c.isWhitespace)

/-- Model of Python `str.startswith(c)` for a one-character prefix. -/
def pyStartsWith (c : Char) : List Char → Bool
  | [] => false
  | x :: _ => x == c

/-- The lemmatization step applied to one string, from line 141 of the
source: `str(wn.morphy(x)) if wn.morphy(x) else x`.  Python truthiness
makes the fallback fire both when `morphy` returns `None` and when it
returns an empty string. -/
def lemApply (morphy : List Char → Option (List Char)) (x : List Char) : List Char :=
  match morphy x with
  | some r => if r = [] then x else r
  | none => x

/-- The seven exclusion predicates of `to_token`, in source order:
pure whitespace, URL-like, `@`-prefixed, `#`-prefixed, punctuation,
numeric-like, stopword. -/
def exclusionChecks : List (SpacyToken → Bool) :=
  [fun t => pyIsSpace t.orth,
   fun t => t.like_url,
   fun t => pyStartsWith '@' t.orth,
   fun t => pyStartsWith '#' t.orth,
   fun t => t.is_punct,
   fun t => t.like_num,
   fun t => t.is_stop]

/-- A token is excluded when the first predicate (in priority order) that
holds for it exists; `List.any` tests the ordered list left to right and
stops at the first match. -/
def excludedTok (t : SpacyToken) : Bool := exclusionChecks.any (fun p => p t)

/-- The loop of `to_token`, translated `if`/`elif` branch by branch.  A
surviving token is appended lowercased, after which the whole
accumulated list is re-processed through the lemmatizer (the source's
line 141 sits inside the loop body, reached exactly when no `continue`
fired). -/
def to_token_go (morphy : List Char → Option (List Char)) :
    List SpacyToken → List (List Char) → List (List Char)
  | [], token_list => token_list
  | token :: rest, token_list =>
    if pyIsSpace token.orth then to_token_go morphy rest token_list
    else if token.like_url then to_token_go morphy rest token_list
    else if pyStartsWith '@' token.orth then to_token_go morphy rest token_list
    else if pyStartsWith '#' token.orth then to_token_go morphy rest token_list
    else if token.is_punct then to_token_go morphy rest token_list
    else if token.like_num then to_token_go morphy rest token_list
    else if token.is_stop then to_token_go morphy rest token_list
    else to_token_go morphy rest
      ((token_list ++ [pyLower token.orth]).map (lemApply morphy))

theorem to_token_go_cons (morphy : List Char → Option (List Char))
    (t : SpacyToken) (ts : List SpacyToken) (acc : List (List Char)) :
    to_token_go morphy (t :: ts) acc
      = if excludedTok t then to_token_go morphy ts acc
        else to_token_go morphy ts ((acc ++ [pyLower t.orth]).map (lemApply morphy)) := by
  cases h1 : pyIsSpace t.orth <;> cases h2 : t.like_url <;>
    cases h3 : pyStartsWith '@' t.orth <;> cases h4 : pyStartsWith '#' t.orth <;>
    cases h5 : t.is_punct <;> cases h6 : t.like_num <;> cases h7 : t.is_stop <;>
    simp [to_token_go, excludedTok, exclusionChecks, h1, h2, h3, h4, h5, h6, h7]

/-- Contract of a morphological-root lookup: any root it produces is a
fixed point of the lookup (the root of a root is the root itself).
WordNet's `morphy` maps a word to a base form present in the
dictionary; base forms map to themselves. -/
def RootLookup (morphy : List Char → Option (List Char)) : Prop :=
  ∀ x r, morphy x = some r → morphy r = some r

theorem lemApply_idem (morphy : List Char → Option (List Char))
    (hm : RootLookup morphy) (x : List Char) :
    lemApply morphy (lemApply morphy x) = lemApply morphy x := by
  rcases h : morphy x with _ | r
  · simp [lemApply, h]
  · by_cases hr : r = []
    · simp [lemApply, h, hr]
    · have h2 := hm x r h
      simp [lemApply, h, hr, h2]


theorem to_token_go_eq (morphy : List Char → Option (List Char)) (hm : RootLookup morphy)
    (ts : List SpacyToken) :
    ∀ (acc : List (List Char)), (∀ x ∈ acc, lemApply morphy x = x) →
      to_token_go morphy ts acc
        = acc ++ (ts.filter (fun t => !excludedTok t)).map
            (fun t => lemApply morphy (pyLower t.orth)) := by
  induction ts with
  | nil => intro acc _; simp [to_token_go]
  | cons t ts ih =>
    intro acc hacc
    rw [to_token_go_cons]
    by_cases h : excludedTok t
    · rw [if_pos h, ih acc hacc]
      simp [List.filter_cons, h]
    · rw [if_neg h]
      have hmap : (acc ++ [pyLower t.orth]).map (lemApply morphy)
          = acc ++ [lemApply morphy (pyLower t.orth)] := by
        rw [List.map_append]
        congr 1
        calc acc.map (lemApply morphy) = acc.map id := List.map_congr_left hacc
          _ = acc := List.map_id acc
      have hacc2 : ∀ x ∈ acc ++ [lemApply morphy (pyLower t.orth)],
          lemApply morphy x = x := by
        intro x hx
        rcases List.mem_append.1 hx with hx | hx
        · exact hacc x hx
        · rw [List.mem_singleton.1 hx]
          exact lemApply_idem morphy hm _
      rw [hmap, ih _ hacc2]
      simp [List.filter_cons, h]

/-- Function `to_token` from `webcontent.py`, parameterised by the module-level
spaCy `parser` and the WordNet `morphy` lookup it calls. -/
def to_token (parse : List Char → List SpacyToken)
    (morphy : List Char → Option (List Char)) (text : List Char) : List (List Char) :=
  to_token_go morphy (parse text) []

theorem to_token_eq_filter_map (parse : List Char → List SpacyToken)
    (morphy : List Char → Option (List Char)) (hm : RootLookup morphy) (text : List Char) :
    to_token parse morphy text
      = ((parse text).filter (fun t => !excludedTok t)).map
          (fun t => lemApply morphy (pyLower t.orth)) := by
  rw [to_token, to_token_go_eq morphy hm _ [] (by simp), List.nil_append]

/-- The strategy the spec describes as equivalent: collect the surviving
tokens lowercased, then lemmatize the whole list exactly once at the
end. -/
def to_token_once (parse : List Char → List SpacyToken)
    (morphy : List Char → Option (List Char)) (text : List Char) : List (List Char) :=
  (((parse text).filter (fun t => !excludedTok t)).map (fun t => pyLower t.orth)).map
    (lemApply morphy)

/-- C3: `to_token` tests each token against the seven exclusion
predicates in source order with the first match winning (`excludedTok`
is the short-circuit disjunction of `exclusionChecks` in priority
order); every surviving token is lowercased and lemmatized via the
morphological-root lookup, which keeps the lowercased surface form
unchanged when no root is found; the result preserves input order and
retains duplicates (it is a `filter`-then-`map` of the token list). -/
theorem to_token_contract (parse : List Char → List SpacyToken)
    (morphy : List Char → Option (List Char)) (hm : RootLookup morphy) (text : List Char) :
    to_token parse morphy text
      = ((parse text).filter (fun t => !excludedTok t)).map
          (fun t => lemApply morphy (pyLower t.orth))
    ∧ (∀ x, morphy x = none → lemApply morphy x = x) :=
  ⟨to_token_eq_filter_map parse morphy hm text,
   fun x hx => by simp [lemApply, hx]⟩

/-- A small concrete tokenizer for witnesses: whitespace words, all
spaCy flags false. -/
def wsTokenizer (s : List Char) : List SpacyToken :=
  (splitWs s).map (fun w =>
    { orth := w, like_url := false, is_punct := false, like_num := false, is_stop := false })

/-- A small concrete morphological-root lookup for witnesses. -/
def testMorphy (x : List Char) : Option (List Char) :=
  if x = "cars".toList then some "car".toList
  else if x = "car".toList then some "car".toList else none

theorem testMorphy_root : RootLookup testMorphy := by
  intro x r h
  simp only [testMorphy] at h
  split_ifs at h
  all_goals (cases h; decide)

/-- Witness for C3 at a concrete input. -/
theorem to_token_contract_witness :
    to_token wsTokenizer testMorphy "Electric cars".toList
      = ((wsTokenizer "Electric cars".toList).filter (fun t => !excludedTok t)).map
          (fun t => lemApply testMorphy (pyLower t.orth))
    ∧ to_token wsTokenizer testMorphy "Electric cars".toList
      = ["electric".toList, "car".toList] :=
  ⟨(to_token_contract wsTokenizer testMorphy testMorphy_root "Electric cars".toList).1,
   by decide⟩

/-- C4: re-processing the whole accumulated list through the lemmatizer
on every surviving token (the behaviour of `to_token`) returns the same
list as lemmatizing the collected survivors exactly once at the end
(`to_token_once`). -/
theorem to_token_relemmatize_equiv (parse : List Char → List SpacyToken)
    (morphy : List Char → Option (List Char)) (hm : RootLookup morphy) (text : List Char) :
    to_token parse morphy text = to_token_once parse morphy text := by
  rw [to_token_eq_filter_map parse morphy hm, to_token_once, List.map_map]
  rfl

/-- Witness for C4 at a concrete input. -/
theorem to_token_relemmatize_equiv_witness :
    to_token wsTokenizer testMorphy "Fast cars again".toList
      = to_token_once wsTokenizer testMorphy "Fast cars again".toList
    ∧ to_token wsTokenizer testMorphy "Fast cars again".toList
      = ["fast".toList, "car".toList, "again".toList] :=
  ⟨to_token_relemmatize_equiv wsTokenizer testMorphy testMorphy_root "Fast cars again".toList,
   by decide⟩

/-- An HTTP response as exposed by `requests.get`: a status code and the
raw body bytes.  `classify_web` never inspects `status`. -/
structure HttpResponse where
  status : Nat
  content : List Nat
deriving DecidableEq

/-- A similarity-table row: a topic paired with its similarity score.
Scores are modelled as rational numbers. -/
abbrev Row := List Char × ℚ

/-- The external collaborators of the pipeline, as abstract functions:
the HTTP client (`requests.get`, failing on network errors), the UTF-8
decoder (`bytes.decode`, failing on invalid input), the boilerplate
extractor (`ArticleExtractor.get_content`), the spaCy `parser`, WordNet
`wn.morphy`, the token list of a spaCy `nlp(...)` document, spaCy
`doc.similarity`, TextBlob sentiment, and the pandas
`sort_values(["similarity"], ascending=[False])` backend. -/
structure Env where
  requests_get : List Char → Except Unit HttpResponse
  decode_utf8 : List Nat → Option (List Char)
  get_content : List Char → List Char
  parse : List Char → List SpacyToken
  morphy : List Char → Option (List Char)
  nlp_tokens : List Char → List (List Char)
  doc_similarity : List Char → List Char → ℚ
  textblob_sentiment : List Char → ℚ × ℚ
  sort_values_desc : List Row → List Row

/-- Function `sentiment` from `webcontent.py`: delegate to TextBlob. -/
def sentiment (env : Env) (text : List Char) : ℚ × ℚ := env.textblob_sentiment text

/-- The failures `classify_web` can propagate: a network error raised by
`requests.get`, a `UnicodeDecodeError` raised by `.decode("utf-8")`, or
the `ValueError` raised by the `pd.DataFrame` constructor when the two
column arrays have different lengths. -/
inductive PipeErr where
  | network
  | decode
  | frameLength
deriving DecidableEq

/-- pandas `reset_index(drop=True)`: re-label the rows with the
contiguous 0-based sequence. -/
def reset_index (rows : List Row) : List (Nat × Row) :=
  (List.range rows.length).zip rows

/-- Contract of pandas `sort_values(["similarity"], ascending=[False])`
with the default `kind="quicksort"`: the output rows are a permutation
of the input rows, ordered by descending similarity.  The default
algorithm is not documented to be stable, so nothing more is
guaranteed. -/
def SortOk (f : List Row → List Row) : Prop :=
  ∀ l, (f l).Perm l ∧ (f l).Pairwise (fun a b => b.2 ≤ a.2)

/-- The module-level default topic list of `webcontent.py`. -/
def topics : List (List Char) :=
  ["automotive".toList, "travel".toList, "science".toList, "technology".toList,
   "nature".toList, "sports".toList, "business".toList, "beauty".toList,
   "fashion".toList, "music".toList, "art".toList, "movie".toList,
   "entertainment".toList, "media".toList, "children".toList, "health".toList,
   "gambling".toList, "religion".toList, "education".toList, "politics".toList,
   "history".toList, "war".toList, "news".toList, "food".toList,
   "literature".toList, "crime".toList, "analysis".toList, "incident".toList,
   "postmortem".toList]

/-- Function `classify_web` from `webcontent.py`, statement by statement: fetch
the page, decode as UTF-8, extract the main content, clean and
tokenize it, join the tokens with spaces, score each token of the
joined topic string against the document, optionally run sentiment on
the raw extracted content, then build the two-column table (which
requires both columns to have the same length), sort it descending by
similarity and reset the row index. -/
def classify_web (env : Env) (url : List Char)
    (tops : List (List Char) := topics) (analyse_sentiment : Bool := false) :
    Except PipeErr (List (Nat × Row) × Option (ℚ × ℚ)) :=
  match env.requests_get url with
  | .error _ => .error .network
  | .ok resp =>
    match env.decode_utf8 resp.content with
    | none => .error .decode
    | some html =>
      let content := env.get_content html
      let token_join := joinWords (to_token env.parse env.morphy (remove_trash content))
      let topicsStr := joinWords tops
      let topic_similarity := (env.nlp_tokens topicsStr).map (env.doc_similarity token_join)
      let senti_result := if analyse_sentiment then some (sentiment env content) else none
      if (splitWs topicsStr).length = topic_similarity.length then
        .ok (reset_index (env.sort_values_desc ((splitWs topicsStr).zip topic_similarity)),
          senti_result)
      else
        .error .frameLength

/-- The space-joined cleaned-and-tokenized document text that
`classify_web` embeds (`token_join`/`doc` in the source). -/
def docText (env : Env) (html : List Char) : List Char :=
  joinWords (to_token env.parse env.morphy (remove_trash (env.get_content html)))

theorem classify_web_ok (env : Env) (url : List Char) (tops : List (List Char))
    (b : Bool) (resp : HttpResponse) (html : List Char)
    (hget : env.requests_get url = .ok resp)
    (hdec : env.decode_utf8 resp.content = some html)
    (hlen : (splitWs (joinWords tops)).length
      = ((env.nlp_tokens (joinWords tops)).map
          (env.doc_similarity (docText env html))).length) :
    classify_web env url tops b
      = .ok (reset_index (env.sort_values_desc
          ((splitWs (joinWords tops)).zip
            ((env.nlp_tokens (joinWords tops)).map (env.doc_similarity (docText env html))))),
        if b then some (sentiment env (env.get_content html)) else none) := by
  simp only [classify_web, hget, hdec, docText] at *
  rw [if_pos hlen]

theorem reset_index_map_fst (rows : List Row) :
    (reset_index rows).map Prod.fst = List.range rows.length := by
  rw [reset_index]
  exact List.map_fst_zip _ _ (by simp)

theorem reset_index_map_snd (rows : List Row) :
    (reset_index rows).map Prod.snd = rows := by
  rw [reset_index]
  exact List.map_snd_zip _ _ (by simp)

theorem reset_index_length (rows : List Row) :
    (reset_index rows).length = rows.length := by
  simp [reset_index]

/-- A stable descending sort on rows (insertion sort; rows with equal
keys keep their input order). -/
def sortStable (l : List Row) : List Row :=
  List.insertionSort (fun a b => b.2 ≤ a.2) l

/-- A valid but unstable descending sort on rows: sort ascending with a
stable algorithm, then reverse.  Rows with equal keys come out in
reversed input order, which the pandas default-`quicksort` contract
permits. -/
def sortUnstable (l : List Row) : List Row :=
  (List.insertionSort (fun a b => a.2 ≤ b.2) l).reverse

theorem sortStable_ok : SortOk sortStable := by
  intro l
  constructor
  · exact List.perm_insertionSort _ l
  · haveI : IsTotal Row (fun a b => b.2 ≤ a.2) := ⟨fun a b => le_total b.2 a.2⟩
    haveI : IsTrans Row (fun a b => b.2 ≤ a.2) := ⟨fun a b c h1 h2 => le_trans h2 h1⟩
    exact List.sorted_insertionSort _ l

theorem sortUnstable_ok : SortOk sortUnstable := by
  intro l
  constructor
  · exact (List.reverse_perm _).trans (List.perm_insertionSort _ l)
  · rw [sortUnstable, List.pairwise_reverse]
    haveI : IsTotal Row (fun a b => a.2 ≤ b.2) := ⟨fun a b => le_total a.2 b.2⟩
    haveI : IsTrans Row (fun a b => a.2 ≤ b.2) := ⟨fun a b c h1 h2 => le_trans h1 h2⟩
    exact List.sorted_insertionSort _ l

/-- Environment for counterexamples and witnesses: every fetch succeeds
with status 200 and an empty body, the body decodes to the empty
document, the extractor is the identity, the tokenizers are
whitespace-based, every similarity is 0, and the sorting backend is
`sortUnstable` — a sort meeting the documented pandas contract that
reverses equal-key rows. -/
def envUnstable : Env where
  requests_get := fun _ => .ok ⟨200, []⟩
  decode_utf8 := fun _ => some []
  get_content := fun s => s
  parse := wsTokenizer
  morphy := testMorphy
  nlp_tokens := splitWs
  doc_similarity := fun _ _ => 0
  textblob_sentiment := fun _ => (0, 0)
  sort_values_desc := sortUnstable

/-- Environment `envUnstable` with the stable sorting backend instead. -/
def envStable : Env := { envUnstable with sort_values_desc := sortStable }

/-- C1 (counterexample): the sort `classify_web` performs is pandas
`sort_values` with the default `kind="quicksort"`, which is not a
stable algorithm; a backend satisfying the documented contract
(`SortOk`) may reverse equal-similarity topics.  Concretely, with the
contract-satisfying backend `sortUnstable` and two topics of equal
similarity, the returned table lists "bb" before "aa" — not the
original input order that the stable sort `sortStable` yields. -/
theorem classify_web_stable_counterexample :
    SortOk envUnstable.sort_values_desc
    ∧ classify_web envUnstable "u".toList ["aa".toList, "bb".toList] false
      = .ok ([(0, ("bb".toList, 0)), (1, ("aa".toList, 0))], none)
    ∧ reset_index (sortStable [("aa".toList, 0), ("bb".toList, 0)])
      = [(0, ("aa".toList, 0)), (1, ("bb".toList, 0))] :=
  ⟨sortUnstable_ok, by rfl, by decide⟩

/-- C1 (amended): for any sorting backend satisfying the pandas
contract, the similarity table returned by `classify_web` is a
permutation of the constructed (topic, similarity) rows, ordered by
similarity in descending order, with the row index reset to the
contiguous 0-based sequence; the relative order of equal-similarity
topics is implementation-defined (the default sort kind is not
stable). -/
theorem classify_web_sorted_desc (env : Env) (url : List Char) (tops : List (List Char))
    (b : Bool) (resp : HttpResponse) (html : List Char)
    (hsort : SortOk env.sort_values_desc)
    (hget : env.requests_get url = .ok resp)
    (hdec : env.decode_utf8 resp.content = some html)
    (hlen : (splitWs (joinWords tops)).length = (env.nlp_tokens (joinWords tops)).length) :
    ∃ df senti, classify_web env url tops b = .ok (df, senti)
      ∧ (df.map Prod.snd).Perm
          ((splitWs (joinWords tops)).zip
            ((env.nlp_tokens (joinWords tops)).map (env.doc_similarity (docText env html))))
      ∧ (df.map Prod.snd).Pairwise (fun a c => c.2 ≤ a.2)
      ∧ df.map Prod.fst = List.range df.length := by
  refine ⟨_, _, classify_web_ok env url tops b resp html hget hdec (by simp [hlen]), ?_, ?_, ?_⟩
  · rw [reset_index_map_snd]
    exact (hsort _).1
  · rw [reset_index_map_snd]
    exact (hsort _).2
  · rw [reset_index_map_fst, reset_index_length]

/-- Witness for the amended C1 at a concrete input. -/
theorem classify_web_sorted_desc_witness :
    ∃ df senti,
      classify_web envStable "u".toList ["aa".toList, "bb".toList] false = .ok (df, senti)
      ∧ (df.map Prod.snd).Perm
          ((splitWs (joinWords ["aa".toList, "bb".toList])).zip
            ((envStable.nlp_tokens (joinWords ["aa".toList, "bb".toList])).map
              (envStable.doc_similarity (docText envStable []))))
      ∧ (df.map Prod.snd).Pairwise (fun a c => c.2 ≤ a.2)
      ∧ df.map Prod.fst = List.range df.length :=
  classify_web_sorted_desc envStable "u".toList ["aa".toList, "bb".toList] false
    ⟨200, []⟩ [] sortStable_ok rfl rfl (by decide)

/-- Environment `envStable` but with every fetch yielding an HTTP 404 response. -/
def env404 : Env := { envStable with requests_get := fun _ => .ok ⟨404, []⟩ }

/-- Environment `envStable` but with every fetch failing with a network error. -/
def envNetFail : Env := { envStable with requests_get := fun _ => .error () }

/-- Environment `envStable` but with body bytes that are not valid UTF-8. -/
def envBadUtf8 : Env := { envStable with decode_utf8 := fun _ => none }

/-- Environment `envStable` but where the language model splits the topic string "co-op"
into three tokens, the way spaCy splits hyphenated words. -/
def envMultiTok : Env :=
  { envStable with nlp_tokens := fun s =>
      if s = "co-op".toList then ["co".toList, "-".toList, "op".toList] else splitWs s }

/-- C5 (counterexample): `classify_web` never checks the HTTP status
(`raise_for_status` is not called and `requests.get` does not raise on
non-2xx), so a 404 response does not surface as a fetch error: the
error page's body is processed and a table is returned. -/
theorem classify_web_non2xx_counterexample :
    env404.requests_get "u".toList = .ok ⟨404, []⟩
    ∧ classify_web env404 "u".toList ["aa".toList] false
      = .ok ([(0, ("aa".toList, 0))], none) :=
  ⟨rfl, rfl⟩

/-- C5 (amended): a network failure or an invalid-UTF-8 body surfaces as
an error from the single fetch attempt, with no table and no sentiment
result; a non-2xx HTTP status, however, is not detected — the response
body is processed like any other page. -/
theorem classify_web_fetch_errors (env : Env) (url : List Char) (tops : List (List Char))
    (b : Bool) :
    (∀ e, env.requests_get url = .error e → classify_web env url tops b = .error .network)
    ∧ (∀ resp, env.requests_get url = .ok resp → env.decode_utf8 resp.content = none →
        classify_web env url tops b = .error .decode) := by
  constructor
  · intro e he
    simp [classify_web, he]
  · intro resp hr hd
    simp [classify_web, hr, hd]

/-- Witness for the amended C5 at concrete environments. -/
theorem classify_web_fetch_errors_witness :
    classify_web envNetFail "u".toList ["aa".toList] false = .error .network
    ∧ classify_web envBadUtf8 "u".toList ["aa".toList] false = .error .decode :=
  ⟨(classify_web_fetch_errors envNetFail "u".toList ["aa".toList] false).1 () rfl,
   (classify_web_fetch_errors envBadUtf8 "u".toList ["aa".toList] false).2 ⟨200, []⟩ rfl rfl⟩

/-- C6: when every topic is a single word (nonempty and whitespace-free)
that the language model tokenizes as exactly one token, the similarity
table has exactly one row per supplied topic and its rows are (up to
the sort's permutation) each topic paired with the similarity score
between the document text and that topic. -/
theorem classify_web_row_per_topic (env : Env) (url : List Char) (tops : List (List Char))
    (b : Bool) (resp : HttpResponse) (html : List Char)
    (hsort : SortOk env.sort_values_desc)
    (hget : env.requests_get url = .ok resp)
    (hdec : env.decode_utf8 resp.content = some html)
    (hwords : ∀ t ∈ tops, t ≠ [] ∧ ∀ c ∈ t, c.isWhitespace = false)
    (htok : env.nlp_tokens (joinWords tops) = tops) :
    ∃ df senti, classify_web env url tops b = .ok (df, senti)
      ∧ df.length = tops.length
      ∧ (df.map Prod.snd).Perm
          (tops.zip (tops.map (env.doc_similarity (docText env html)))) := by
  have hsplit := splitWs_joinWords tops hwords
  have hlen : (splitWs (joinWords tops)).length
      = ((env.nlp_tokens (joinWords tops)).map
          (env.doc_similarity (docText env html))).length := by
    rw [hsplit, htok, List.length_map]
  refine ⟨_, _, classify_web_ok env url tops b resp html hget hdec hlen, ?_, ?_⟩
  · rw [reset_index_length,
      ((hsort ((splitWs (joinWords tops)).zip
        ((env.nlp_tokens (joinWords tops)).map
          (env.doc_similarity (docText env html))))).1).length_eq,
      List.length_zip, hsplit, htok, List.length_map]
    simp
  · rw [reset_index_map_snd, hsplit, htok]
    exact (hsort _).1

/-- Witness for C6 at a concrete input. -/
theorem classify_web_row_per_topic_witness :
    ∃ df senti,
      classify_web envStable "u".toList ["aa".toList, "bb".toList] false = .ok (df, senti)
      ∧ df.length = 2
      ∧ (df.map Prod.snd).Perm
          (["aa".toList, "bb".toList].zip
            (["aa".toList, "bb".toList].map
              (envStable.doc_similarity (docText envStable [])))) :=
  classify_web_row_per_topic envStable "u".toList ["aa".toList, "bb".toList] false
    ⟨200, []⟩ [] sortStable_ok rfl rfl (by decide) (by decide)

/-- C7: with `analyse_sentiment=False` the sentiment slot of the result
is explicitly `none` (never a zero-valued placeholder) and the
sentiment model is not invoked — the result is unchanged under any
replacement of the sentiment backend; with `analyse_sentiment=True` and
a successful run the result carries `some` pair of two numbers. -/
theorem classify_web_sentiment_flag (env : Env) (url : List Char) (tops : List (List Char))
    (f : List Char → ℚ × ℚ) :
    (classify_web { env with textblob_sentiment := f } url tops false
      = classify_web env url tops false)
    ∧ (∀ df s, classify_web env url tops false = .ok (df, s) → s = none)
    ∧ (∀ resp html, env.requests_get url = .ok resp →
        env.decode_utf8 resp.content = some html →
        (splitWs (joinWords tops)).length = (env.nlp_tokens (joinWords tops)).length →
        ∃ df p, classify_web env url tops true = .ok (df, some p)) := by
  refine ⟨?_, ?_, ?_⟩
  · cases hget : env.requests_get url with
    | error e => simp [classify_web, hget]
    | ok resp =>
      cases hdec : env.decode_utf8 resp.content with
      | none => simp [classify_web, hget, hdec]
      | some html => simp [classify_web, hget, hdec]
  · intro df s h
    cases hget : env.requests_get url with
    | error e => simp [classify_web, hget] at h
    | ok resp =>
      cases hdec : env.decode_utf8 resp.content with
      | none => simp [classify_web, hget, hdec] at h
      | some html =>
        by_cases hc : (splitWs (joinWords tops)).length
            = ((env.nlp_tokens (joinWords tops)).map
                (env.doc_similarity (docText env html))).length
        · rw [classify_web_ok env url tops false resp html hget hdec hc] at h
          simp only [Except.ok.injEq, Prod.mk.injEq] at h
          exact h.2.symm
        · have herr : classify_web env url tops false = .error .frameLength := by
            simp only [classify_web, hget, hdec, docText] at *
            rw [if_neg hc]
          rw [herr] at h
          cases h
  · intro resp html hget hdec hlen
    have h := classify_web_ok env url tops true resp html hget hdec (by simp [hlen])
    exact ⟨_, _, h⟩

/-- Witness for C7 at a concrete input. -/
theorem classify_web_sentiment_flag_witness :
    (classify_web { envStable with textblob_sentiment := fun _ => (1, 1) } "u".toList
        ["aa".toList] false
      = classify_web envStable "u".toList ["aa".toList] false)
    ∧ (none : Option (ℚ × ℚ)) = none
    ∧ ∃ df p, classify_web envStable "u".toList ["aa".toList] true = .ok (df, some p) :=
  ⟨(classify_web_sentiment_flag envStable "u".toList ["aa".toList] (fun _ => (1, 1))).1,
   (classify_web_sentiment_flag envStable "u".toList ["aa".toList] (fun _ => (1, 1))).2.1
     [(0, ("aa".toList, 0))] none rfl,
   (classify_web_sentiment_flag envStable "u".toList ["aa".toList] (fun _ => (1, 1))).2.2
     ⟨200, []⟩ [] rfl rfl (by decide)⟩

/-- C8: whenever the sentiment stage runs, its input is the original
extracted content `env.get_content html` — not the `remove_trash`
output and not the rejoined token text. -/
theorem classify_web_sentiment_input (env : Env) (url : List Char) (tops : List (List Char))
    (resp : HttpResponse) (html : List Char)
    (hget : env.requests_get url = .ok resp)
    (hdec : env.decode_utf8 resp.content = some html)
    (hlen : (splitWs (joinWords tops)).length = (env.nlp_tokens (joinWords tops)).length) :
    ∃ df, classify_web env url tops true
      = .ok (df, some (env.textblob_sentiment (env.get_content html))) :=
 by
  have h := classify_web_ok env url tops true resp html hget hdec (by simp [hlen])
  exact ⟨_, h⟩

/-- Witness for C8 at a concrete input. -/
theorem classify_web_sentiment_input_witness :
    ∃ df, classify_web envStable "u".toList ["aa".toList] true
      = .ok (df, some (envStable.textblob_sentiment (envStable.get_content []))) :=
  classify_web_sentiment_input envStable "u".toList ["aa".toList] ⟨200, []⟩ [] rfl rfl (by decide)

/-- C9: when the cleaner yields the empty string (no line beats the
threshold) the pipeline does not fail: tokenization yields the empty
token list (the tokenizer produces no tokens on empty input), and
`classify_web` still returns a table pairing each topic with whatever
numeric value the similarity backend yields against the degenerate
empty document text. -/
theorem classify_web_degenerate_ok (env : Env) (url : List Char) (tops : List (List Char))
    (resp : HttpResponse) (html : List Char)
    (hsort : SortOk env.sort_values_desc)
    (hget : env.requests_get url = .ok resp)
    (hdec : env.decode_utf8 resp.content = some html)
    (hempty : remove_trash (env.get_content html) = [])
    (hparse : env.parse [] = [])
    (hwords : ∀ t ∈ tops, t ≠ [] ∧ ∀ c ∈ t, c.isWhitespace = false)
    (htok : env.nlp_tokens (joinWords tops) = tops) :
    to_token env.parse env.morphy (remove_trash (env.get_content html)) = []
    ∧ ∃ df, classify_web env url tops false = .ok (df, none)
      ∧ (df.map Prod.snd).Perm (tops.zip (tops.map (env.doc_similarity []))) := by
  have htt : to_token env.parse env.morphy (remove_trash (env.get_content html)) = [] := by
    rw [hempty, to_token, hparse]
    rfl
  have hdoc : docText env html = [] := by
    simp only [docText, htt, joinWords]
  have hsplit := splitWs_joinWords tops hwords
  have hlen : (splitWs (joinWords tops)).length
      = ((env.nlp_tokens (joinWords tops)).map
          (env.doc_similarity (docText env html))).length := by
    rw [hsplit, htok, List.length_map]
  refine ⟨htt, _, classify_web_ok env url tops false resp html hget hdec hlen, ?_⟩
  rw [reset_index_map_snd, hsplit, htok, hdoc]
  exact (hsort _).1

/-- Witness for C9 at a concrete input. -/
theorem classify_web_degenerate_ok_witness :
    to_token envStable.parse envStable.morphy (remove_trash (envStable.get_content [])) = []
    ∧ ∃ df, classify_web envStable "u".toList ["aa".toList, "bb".toList] false = .ok (df, none)
      ∧ (df.map Prod.snd).Perm
          (["aa".toList, "bb".toList].zip
            (["aa".toList, "bb".toList].map (envStable.doc_similarity []))) :=
  classify_web_degenerate_ok envStable "u".toList ["aa".toList, "bb".toList] ⟨200, []⟩ []
    sortStable_ok rfl rfl rfl rfl (by decide) (by decide)

/-- C10: the topics column is the whitespace-split of the joined topic
string while the similarity column follows the language model's
tokenization of that same string; when every topic is a single word the
model tokenizes as one token, the two columns have equal length and the
table is built, whereas a topic the model splits into several tokens
(here the hyphenated "co-op") makes the lengths differ and
`classify_web` fails with the DataFrame length error instead of
returning a row for it. -/
theorem classify_web_frame_length (env : Env) (url : List Char) (tops : List (List Char))
    (b : Bool) (resp : HttpResponse) (html : List Char)
    (hget : env.requests_get url = .ok resp)
    (hdec : env.decode_utf8 resp.content = some html)
    (hwords : ∀ t ∈ tops, t ≠ [] ∧ ∀ c ∈ t, c.isWhitespace = false)
    (htok : env.nlp_tokens (joinWords tops) = tops) :
    ((splitWs (joinWords tops)).length = (env.nlp_tokens (joinWords tops)).length
      ∧ ∃ r, classify_web env url tops b = .ok r)
    ∧ classify_web envMultiTok "u".toList ["co-op".toList] false = .error .frameLength := by
  refine ⟨⟨?_, ?_⟩, ?_⟩
  · rw [splitWs_joinWords tops hwords, htok]
  · exact ⟨_, classify_web_ok env url tops b resp html hget hdec
      (by simp [splitWs_joinWords tops hwords, htok])⟩
  · rfl

/-- Witness for C10 at a concrete input. -/
theorem classify_web_frame_length_witness :
    ((splitWs (joinWords ["aa".toList])).length
        = (envStable.nlp_tokens (joinWords ["aa".toList])).length
      ∧ ∃ r, classify_web envStable "u".toList ["aa".toList] false = .ok r)
    ∧ classify_web envMultiTok "u".toList ["co-op".toList] false = .error .frameLength :=
  classify_web_frame_length envStable "u".toList ["aa".toList] false ⟨200, []⟩ []
    rfl rfl (by decide) (by decide)
